import Mathlib

/-!
Shallow embedding of the auto_deploy pipeline (src/main.py and src/modules/)
and proofs about its queue resolution, build-completion polling, monitoring
session, notification fan-out and orchestrator stage logic.

Conventions used throughout:
* Python `Optional[T]` is `Option T`; a caught exception that the source code
  converts into `None`/`False` is modelled as the corresponding value.
* Network responses are parameters of the embedded functions: a function of
  type `Nat → ...` gives the response to the i-th request of a polling loop.
* Python string truthiness (`if s:` on `Optional[str]`) is `truthyOpt`.
-/

namespace AutoDeploy

/-- Python truthiness of an `Optional[str]`: `None` and the empty string are
falsy, every other string is truthy. -/
def truthyOpt : Option String → Bool
  | none => false
  | some s => s ≠ ""

/-! ## JenkinsClient._get_build_number_from_queue (src/modules/jenkins_ops.py 159-203)

Each poll issues `GET {queue_url}api/json`.  The states a response can put the
loop in:
* `executable n` — status 200 and the JSON carries `executable.number = n`;
* `cancelled`   — status 200, no usable executable number, `cancelled` truthy;
* `waiting`     — status 200, no usable executable number, not cancelled;
* `httpError`   — status other than 200.
-/

inductive QueueState where
  | waiting
  | cancelled
  | executable (n : Nat)
  | httpError
deriving DecidableEq

/-- Which branch of `_get_build_number_from_queue` produced the return value
(the code logs a distinct message in each of these branches:
`logger.warning("构建被取消")` for a cancelled item,
`logger.error("获取队列信息失败…")` for a non-200 response and
`logger.warning("等待构建编号超时")` when the attempt budget runs out). -/
inductive QueueExit where
  | gotNumber
  | cancelledExit
  | fetchErrorExit
  | timeoutExit
deriving DecidableEq

/-- The observable outcome of one run of `_get_build_number_from_queue`:
the returned `Optional[int]`, how many queue fetches were issued, how many
`time.sleep(2)` calls happened, and which branch ended the loop. -/
structure QueueResolveResult where
  value : Option Nat
  fetches : Nat
  sleeps : Nat
  exit : QueueExit
deriving DecidableEq

/-- The `while attempts < max_attempts` loop of
`_get_build_number_from_queue`, with `remaining = max_attempts - attempts`.
`stateAt i` is the parsed i-th queue response.  Mirrors jenkins_ops.py
173-199: check `executable.number` first, then `cancelled`, otherwise
`time.sleep(2)` and retry; a non-200 response returns `None` at once. -/
def queueLoop (stateAt : Nat → QueueState) :
    Nat → Nat → Nat → QueueResolveResult
  | 0, fetches, sleeps => ⟨none, fetches, sleeps, .timeoutExit⟩
  | r + 1, fetches, sleeps =>
    match stateAt fetches with
    | .executable n => ⟨some n, fetches + 1, sleeps, .gotNumber⟩
    | .cancelled => ⟨none, fetches + 1, sleeps, .cancelledExit⟩
    | .httpError => ⟨none, fetches + 1, sleeps, .fetchErrorExit⟩
    | .waiting => queueLoop stateAt r (fetches + 1) (sleeps + 1)

/-- `max_attempts = 10` hardcoded at jenkins_ops.py line 170. -/
def queueMaxAttempts : Nat := 10

/-- `time.sleep(2)`: the fixed poll interval of the queue loop, seconds
(jenkins_ops.py line 192). -/
def queuePollInterval : Nat := 2

/-- `JenkinsClient._get_build_number_from_queue`, starting from
`attempts = 0` with no fetches or sleeps performed yet. -/
def get_build_number_from_queue (stateAt : Nat → QueueState)
    (maxAttempts : Nat := queueMaxAttempts) : QueueResolveResult :=
  queueLoop stateAt maxAttempts 0 0

/-- A queue item that never leaves the waiting state exhausts the whole
attempt budget: `r` further fetches and `r` further sleeps, ending in the
timeout branch with value `none`. -/
theorem queueLoop_all_waiting (stateAt : Nat → QueueState)
    (h : ∀ i, stateAt i = .waiting) :
    ∀ r fetches sleeps, queueLoop stateAt r fetches sleeps =
      ⟨none, fetches + r, sleeps + r, .timeoutExit⟩ := by
  intro r
  induction r with
  | zero => intro fetches sleeps; simp [queueLoop]
  | succ n ih =>
    intro fetches sleeps
    rw [queueLoop, h fetches]
    rw [ih (fetches + 1) (sleeps + 1)]
    simp
    omega

/-- Claim C2: for a queue token whose state never carries an executable
reference and is never marked cancelled (every poll sees `waiting`), queue
resolution performs exactly `maxAttempts` state fetches (10 by default),
sleeping the fixed 2-second poll interval after each unproductive fetch, and
then fails through the timeout branch (logging the queue-timeout warning)
with no build number. -/
theorem queue_resolution_timeout_after_maxAttempts
    (stateAt : Nat → QueueState) (h : ∀ i, stateAt i = .waiting)
    (maxAttempts : Nat) :
    get_build_number_from_queue stateAt maxAttempts =
      ⟨none, maxAttempts, maxAttempts, .timeoutExit⟩ ∧
    queueMaxAttempts = 10 ∧ queuePollInterval = 2 := by
  refine ⟨?_, rfl, rfl⟩
  unfold get_build_number_from_queue
  rw [queueLoop_all_waiting stateAt h maxAttempts 0 0]
  simp

/-- Witness for C2: the constant-`waiting` token, at the default budget of
10 attempts, yields 10 fetches, 10 sleeps and the timeout exit. -/
theorem queue_resolution_timeout_after_maxAttempts_witness :
    (∀ i, (fun _ : Nat => QueueState.waiting) i = QueueState.waiting) ∧
    get_build_number_from_queue (fun _ => QueueState.waiting) 10 =
      ⟨none, 10, 10, .timeoutExit⟩ :=
  ⟨fun _ => rfl,
    (queue_resolution_timeout_after_maxAttempts
      (fun _ => QueueState.waiting) (fun _ => rfl) 10).1⟩

/-- Claim C3: a queue token marked cancelled on the first poll makes
resolution return immediately — exactly one fetch, no sleeps, none of the
remaining `maxAttempts - 1` polls — through the cancelled branch, which is a
different exit (a distinct logged warning) from the queue-timeout branch.
The returned `Optional[int]` is `none`, as for every failure of this call. -/
theorem queue_resolution_cancelled_first_poll
    (stateAt : Nat → QueueState) (h : stateAt 0 = .cancelled)
    (maxAttempts : Nat) (hm : 0 < maxAttempts) :
    get_build_number_from_queue stateAt maxAttempts =
      ⟨none, 1, 0, .cancelledExit⟩ ∧
    QueueExit.cancelledExit ≠ QueueExit.timeoutExit := by
  refine ⟨?_, by decide⟩
  obtain ⟨r, rfl⟩ : ∃ r, maxAttempts = r + 1 :=
    ⟨maxAttempts - 1, by omega⟩
  unfold get_build_number_from_queue
  rw [queueLoop, h]

/-- Witness for C3: the token cancelled on poll 0, with the default budget
of 10 attempts, resolves after a single fetch through the cancelled exit. -/
theorem queue_resolution_cancelled_first_poll_witness :
    (fun _ : Nat => QueueState.cancelled) 0 = QueueState.cancelled ∧
    0 < 10 ∧
    get_build_number_from_queue (fun _ => QueueState.cancelled) 10 =
      ⟨none, 1, 0, .cancelledExit⟩ :=
  ⟨rfl, by decide,
    (queue_resolution_cancelled_first_poll
      (fun _ => QueueState.cancelled) rfl 10 (by decide)).1⟩

/-! ## Build status polling (src/modules/jenkins_ops.py 205-283)

`get_build_info` returns the parsed JSON on a 200 response and `None` on any
other status code or exception; we model a response as `Option BuildInfo`.
-/

/-- The two fields of a Jenkins build-info response that
`get_build_status` reads: `building` (absent defaults to `False`) and
`result` (absent or JSON null is `none`). -/
structure BuildInfo where
  building : Bool
  result : Option String
deriving DecidableEq

/-- `JenkinsClient.get_build_status` (jenkins_ops.py 231-252): `None` when
the build-info lookup yields nothing, `"IN_PROGRESS"` while `building` is
set, otherwise the `result` field verbatim. -/
def get_build_status (info : Option BuildInfo) : Option String :=
  match info with
  | none => none
  | some bi => if bi.building then some "IN_PROGRESS" else bi.result

/-- The `while time.time() - start_time < timeout` loop of
`JenkinsClient.wait_for_build` (jenkins_ops.py 268-283).  `statusAt i` is
what `get_build_status` returned on the i-th poll; time advances by
`check_interval` per iteration through the `time.sleep(check_interval)`
call.  The loop returns the status only when it is truthy and different
from `"IN_PROGRESS"` (Python `if status and status != "IN_PROGRESS"`),
and `none` once the timeout has elapsed. -/
def waitLoop (statusAt : Nat → Option String) (timeout interval : Nat)
    (hi : 0 < interval) (elapsed polls : Nat) : Option String :=
  if _h : elapsed < timeout then
    match statusAt polls with
    | some s =>
      if s ≠ "" ∧ s ≠ "IN_PROGRESS" then some s
      else waitLoop statusAt timeout interval hi (elapsed + interval) (polls + 1)
    | none => waitLoop statusAt timeout interval hi (elapsed + interval) (polls + 1)
  else none
termination_by timeout - elapsed
decreasing_by all_goals omega

/-- `JenkinsClient.wait_for_build` with its default `timeout=600`,
`check_interval=10` (jenkins_ops.py 254-255).  `infoAt i` is the build-info
response to the i-th status poll. -/
def wait_for_build (infoAt : Nat → Option BuildInfo)
    (timeout : Nat := 600) (interval : Nat := 10)
    (hi : 0 < interval := by decide) : Option String :=
  waitLoop (fun i => get_build_status (infoAt i)) timeout interval hi 0 0

/-- A poll result on which `wait_for_build` keeps waiting: a falsy status
(`None` or the empty string) or `"IN_PROGRESS"`. -/
def pollContinues (st : Option String) : Prop :=
  st = none ∨ st = some "" ∨ st = some "IN_PROGRESS"

/-- If every poll sees a non-terminal status, the wait loop runs out the
clock and returns `none`. -/
theorem waitLoop_never_terminal (statusAt : Nat → Option String)
    (hs : ∀ i, pollContinues (statusAt i)) (timeout interval : Nat)
    (hi : 0 < interval) :
    ∀ n elapsed polls, timeout - elapsed ≤ n →
      waitLoop statusAt timeout interval hi elapsed polls = none := by
  intro n
  induction n with
  | zero =>
    intro elapsed polls h
    rw [waitLoop]
    have : ¬ elapsed < timeout := by omega
    simp [this]
  | succ n ih =>
    intro elapsed polls h
    rw [waitLoop]
    by_cases hel : elapsed < timeout
    · simp only [hel, dif_pos]
      have hnext : timeout - (elapsed + interval) ≤ n := by omega
      rcases hs polls with h0 | h0 | h0 <;> rw [h0]
      · exact ih (elapsed + interval) (polls + 1) hnext
      · simp only [ne_eq, not_true_eq_false, false_and, if_neg, not_false_eq_true]
        exact ih (elapsed + interval) (polls + 1) hnext
      · simp only [ne_eq, not_true_eq_false, and_false, if_neg, not_false_eq_true]
        exact ih (elapsed + interval) (polls + 1) hnext
    · simp [hel]

/-! ## Orchestrator: Jenkins build stage outcome (src/main.py 282-307)

After `wait_for_build` returns, `jenkins_build_stage` maps the status to the
stage's terminal status and its own boolean return value (`True` lets the
pipeline continue, `False` aborts the run):
a falsy status (timeout) ends the stage with `warning` and returns `True`;
`"SUCCESS"` ends it with `success` and returns `True`; any other truthy
status ends it with `failed` and returns `False`. -/
def jenkins_build_outcome (buildStatus : Option String) : String × Bool :=
  if truthyOpt buildStatus = false then ("warning", true)
  else if buildStatus = some "SUCCESS" then ("success", true)
  else ("failed", false)

/-- Claim C4: a build whose every status poll reports `building=true` makes
`wait_for_build` poll until the timeout elapses and return `None`
(the timeout outcome), and the orchestrator's build stage then ends with
status `warning` and returns `True`, letting the pipeline continue instead
of aborting. -/
theorem wait_for_build_timeout_is_warning
    (infoAt : Nat → Option BuildInfo)
    (hb : ∀ i, ∃ r, infoAt i = some ⟨true, r⟩)
    (timeout interval : Nat) (hi : 0 < interval) :
    wait_for_build infoAt timeout interval hi = none ∧
    jenkins_build_outcome (wait_for_build infoAt timeout interval hi) =
      ("warning", true) := by
  have hstat : ∀ i, pollContinues (get_build_status (infoAt i)) := by
    intro i
    obtain ⟨r, hr⟩ := hb i
    right; right
    rw [hr]
    simp [get_build_status]
  have hw : wait_for_build infoAt timeout interval hi = none := by
    unfold wait_for_build
    exact waitLoop_never_terminal _ hstat timeout interval hi
      (timeout - 0) 0 0 (Nat.le_refl _)
  exact ⟨hw, by rw [hw]; rfl⟩

/-- Witness for C4: a build always reporting `building=true` (with no result
field yet), at the default 600-second timeout and 10-second interval, times
out and is mapped to a `warning` stage that continues the pipeline. -/
theorem wait_for_build_timeout_is_warning_witness :
    (∀ i, ∃ r, (fun _ : Nat => some (⟨true, none⟩ : BuildInfo)) i =
      some (⟨true, r⟩ : BuildInfo)) ∧
    0 < 10 ∧
    wait_for_build (fun _ => some ⟨true, none⟩) 600 10 (by decide) = none ∧
    jenkins_build_outcome
      (wait_for_build (fun _ => some ⟨true, none⟩) 600 10 (by decide)) =
      ("warning", true) :=
  ⟨fun _ => ⟨none, rfl⟩, by decide,
    (wait_for_build_timeout_is_warning (fun _ => some ⟨true, none⟩)
      (fun _ => ⟨none, rfl⟩) 600 10 (by decide)).1,
    (wait_for_build_timeout_is_warning (fun _ => some ⟨true, none⟩)
      (fun _ => ⟨none, rfl⟩) 600 10 (by decide)).2⟩

/-- Claim C10 (implicit): a failed build-status fetch (`get_build_status`
yields `None` because the build-info lookup returned no data) is treated
exactly like an in-progress build: the poll loop continues, a build whose
status is never retrievable consumes the full timeout, the run of the loop
is the same as for a permanently in-progress build, and the outcome is the
non-fatal warning continuation — never a failed stage or an abort. -/
theorem unretrievable_status_polls_like_in_progress
    (infoAt : Nat → Option BuildInfo) (hn : ∀ i, infoAt i = none)
    (timeout interval : Nat) (hi : 0 < interval) :
    get_build_status none = none ∧
    wait_for_build infoAt timeout interval hi = none ∧
    wait_for_build infoAt timeout interval hi =
      wait_for_build (fun _ => some ⟨true, none⟩) timeout interval hi ∧
    jenkins_build_outcome (wait_for_build infoAt timeout interval hi) =
      ("warning", true) := by
  have hstat : ∀ i, pollContinues (get_build_status (infoAt i)) := by
    intro i
    left
    rw [hn i]
    rfl
  have hw : wait_for_build infoAt timeout interval hi = none := by
    unfold wait_for_build
    exact waitLoop_never_terminal _ hstat timeout interval hi
      (timeout - 0) 0 0 (Nat.le_refl _)
  have hw2 : wait_for_build (fun _ => some (⟨true, none⟩ : BuildInfo))
      timeout interval hi = none := by
    unfold wait_for_build
    refine waitLoop_never_terminal _ ?_ timeout interval hi
      (timeout - 0) 0 0 (Nat.le_refl _)
    intro i
    right; right
    rfl
  exact ⟨rfl, hw, by rw [hw, hw2], by rw [hw]; rfl⟩

/-- Witness for C10: with every build-info lookup failing, the default-
parameter wait times out, equals the permanently-in-progress run, and maps
to the warning continuation. -/
theorem unretrievable_status_polls_like_in_progress_witness :
    (∀ i, (fun _ : Nat => (none : Option BuildInfo)) i = none) ∧
    0 < 10 ∧
    wait_for_build (fun _ => none) 600 10 (by decide) = none ∧
    jenkins_build_outcome (wait_for_build (fun _ => none) 600 10 (by decide)) =
      ("warning", true) :=
  ⟨fun _ => rfl, by decide,
    (unretrievable_status_polls_like_in_progress (fun _ => none)
      (fun _ => rfl) 600 10 (by decide)).2.1,
    (unretrievable_status_polls_like_in_progress (fun _ => none)
      (fun _ => rfl) 600 10 (by decide)).2.2.2⟩

/-! ## NotificationManager.send_notification (src/modules/notification.py 37-76)

Each configured channel's send attempt (`_send_slack`, `_send_email`,
`_send_wecom`) is one outbound call whose world-side outcome we model as a
`SendBehavior`: the call reports success, reports failure (bad status code,
incomplete configuration, application-level error code), or raises an
exception.  Each `_send_*` body is one `try/except` returning `bool`, so a
raised exception is caught there and becomes `False`. -/

inductive SendBehavior where
  | ok
  | fail
  | raises
deriving DecidableEq

/-- The body of a `_send_*` call before its `try/except`: it either returns
a boolean or raises. -/
def rawSend : SendBehavior → Except Unit Bool
  | .ok => .ok true
  | .fail => .ok false
  | .raises => .error ()

/-- A `_send_*` method: the `try/except` around `rawSend` turns a raised
exception into `False` (notification.py 89-134, 147-231, 244-297). -/
def guardedSend (b : SendBehavior) : Bool :=
  match rawSend b with
  | .ok r => r
  | .error _ => false

/-- The channel names `send_notification` knows how to dispatch
(notification.py 60-68); any other configured name logs a warning and is
recorded as `False` (lines 69-71). -/
def knownChannel (c : String) : Bool :=
  c = "slack" || c = "email" || c = "wecom"

/-- The per-channel branch of the dispatch loop for a channel present in
the configuration. -/
def dispatchChannel (c : String) (b : SendBehavior) : Bool :=
  if knownChannel c then guardedSend b else false

/-- First configured behavior for a channel name (Python dict lookup on the
`NOTIFICATION` config). -/
def lookupChannel (c : String) :
    List (String × SendBehavior) → Option SendBehavior
  | [] => none
  | (k, b) :: rest => if k = c then some b else lookupChannel c rest

/-- The outcome `send_notification` records for one requested channel:
dispatch when configured, `False` with a logged warning when the channel is
absent from the configuration (notification.py 72-74). -/
def channelOutcome (config : List (String × SendBehavior)) (c : String) :
    Bool :=
  match lookupChannel c config with
  | some b => dispatchChannel c b
  | none => false

/-- `NotificationManager.send_notification`: when the caller supplies no
channel list (`None`/empty, Python falsy), default to every configured
channel; then build the outcome map channel by channel. -/
def send_notification (config : List (String × SendBehavior))
    (channels : List String) : List (String × Bool) :=
  let chs := if channels.isEmpty then config.map (fun kv => kv.1) else channels
  chs.map (fun c => (c, channelOutcome config c))

/-- Claim C6: for a supplied (non-empty, duplicate-free) channel list, the
outcome map of `send_notification` has exactly the requested channels as
keys, one boolean slot each; every slot is a function of that channel's own
configuration alone (so one channel's failure cannot affect another's
attempt); a channel whose send raises, or which is absent from the
configuration, is recorded as `false`; and the dispatcher itself is a total
function — a raised channel exception is consumed by the channel's own
`try/except`, never escaping the dispatch call. -/
theorem send_notification_isolated_outcomes
    (config : List (String × SendBehavior)) (channels : List String)
    (hne : channels ≠ []) (_hnd : channels.Nodup) :
    (send_notification config channels).map (fun kv => kv.1) = channels ∧
    send_notification config channels =
      channels.map (fun c => (c, channelOutcome config c)) ∧
    (∀ c ∈ channels, lookupChannel c config = some .raises →
      (c, false) ∈ send_notification config channels) ∧
    (∀ c ∈ channels, lookupChannel c config = none →
      (c, false) ∈ send_notification config channels) := by
  have hchs : send_notification config channels =
      channels.map (fun c => (c, channelOutcome config c)) := by
    unfold send_notification
    rw [if_neg (by simpa using hne)]
  refine ⟨?_, hchs, ?_, ?_⟩
  · rw [hchs, List.map_map]
    exact List.map_id channels
  · intro c hc hraise
    rw [hchs]
    have : channelOutcome config c = false := by
      simp [channelOutcome, hraise, dispatchChannel, guardedSend, rawSend]
    rw [← this]
    exact List.mem_map_of_mem _ hc
  · intro c hc habsent
    rw [hchs]
    have : channelOutcome config c = false := by
      unfold channelOutcome
      rw [habsent]
    rw [← this]
    exact List.mem_map_of_mem _ hc

/-- Witness for C6: the spec's three-channel example — slack succeeds, email
raises inside its send, wecom fails its webhook call — produces exactly
three slots, `true`/`false`/`false`, with the raising channel isolated. -/
theorem send_notification_isolated_outcomes_witness :
    (["slack", "email", "wecom"] : List String) ≠ [] ∧
    (["slack", "email", "wecom"] : List String).Nodup ∧
    (send_notification
        [("slack", .ok), ("email", .raises), ("wecom", .fail)]
        ["slack", "email", "wecom"]).map (fun kv => kv.1) =
      ["slack", "email", "wecom"] ∧
    send_notification
        [("slack", .ok), ("email", .raises), ("wecom", .fail)]
        ["slack", "email", "wecom"] =
      [("slack", true), ("email", false), ("wecom", false)] :=
  ⟨by decide, by decide,
    (send_notification_isolated_outcomes
      [("slack", .ok), ("email", .raises), ("wecom", .fail)]
      ["slack", "email", "wecom"] (by decide) (by decide)).1,
    by decide⟩

/-! ## Orchestrator: notification stage classification (src/main.py 350-367)

`notification_stage` counts the `True` slots of the outcome map:
all of them → stage `success` (returns `True`); at least one but not all →
stage `warning` (returns `True`); none → stage `failed` (returns `False`). -/
def notification_stage_outcome (results : List (String × Bool)) :
    String × Bool :=
  let successCount := (results.filter (fun kv => kv.2)).length
  let totalCount := results.length
  if successCount = totalCount then ("success", true)
  else if 0 < successCount then ("warning", true)
  else ("failed", false)

/-- Claim C7: over a non-empty notification outcome map (the dispatcher
always emits one entry per attempted channel, and the deployed configuration
has three channels, so the map the stage sees is never empty), the Notify
stage ends `success` when every entry is `true`, `warning` when at least one
but not all entries are `true`, and `failed` when no entry is `true`. -/
theorem notification_stage_classification
    (results : List (String × Bool)) (hne : results ≠ []) :
    ((∀ kv ∈ results, kv.2 = true) →
      notification_stage_outcome results = ("success", true)) ∧
    ((∃ kv ∈ results, kv.2 = true) → (∃ kv ∈ results, kv.2 = false) →
      notification_stage_outcome results = ("warning", true)) ∧
    ((∀ kv ∈ results, kv.2 = false) →
      notification_stage_outcome results = ("failed", false)) := by
  refine ⟨?_, ?_, ?_⟩
  · intro hall
    unfold notification_stage_outcome
    have : results.filter (fun kv => kv.2) = results :=
      List.filter_eq_self.mpr (fun kv hkv => by simpa using hall kv hkv)
    simp [this]
  · intro ⟨kv₁, h₁, hkv₁⟩ ⟨kv₂, h₂, hkv₂⟩
    unfold notification_stage_outcome
    have hpos : 0 < (results.filter (fun kv => kv.2)).length := by
      have : kv₁ ∈ results.filter (fun kv => kv.2) :=
        List.mem_filter.mpr ⟨h₁, by simpa using hkv₁⟩
      exact List.length_pos.mpr (fun he => by simp [he] at this)
    have hlt : (results.filter (fun kv => kv.2)).length < results.length := by
      refine List.length_filter_lt_length_iff_exists.mpr ?_
      exact ⟨kv₂, h₂, by simp [hkv₂]⟩
    rw [if_neg (by omega), if_pos hpos]
  · intro hall
    unfold notification_stage_outcome
    have hempty : results.filter (fun kv => kv.2) = [] := by
      rw [List.filter_eq_nil_iff]
      intro kv hkv
      simp [hall kv hkv]
    have hpos : 0 < results.length :=
      List.length_pos.mpr hne
    rw [hempty]
    rw [if_neg (by simp; omega)]
    simp

/-- Witness for C7: the three concrete maps — all `true`, mixed, all
`false` — land in the three stage statuses respectively. -/
theorem notification_stage_classification_witness :
    ([("slack", true), ("email", false)] : List (String × Bool)) ≠ [] ∧
    notification_stage_outcome [("slack", true), ("email", false)] =
      ("warning", true) :=
  ⟨by decide,
    (notification_stage_classification [("slack", true), ("email", false)]
        (by decide)).2.1
      ⟨("slack", true), by decide, rfl⟩
      ⟨("email", false), by decide, rfl⟩⟩

/-! ## MCPClient (src/modules/mcp_protocol.py)

`MCPClient` holds `self.session_id` (an `Optional[str]`) and sends one HTTP
request per operation.  A backend response is modelled as the value the
method's `try/except` turns it into. -/

/-- `MCPClient.add_stage` (mcp_protocol.py 122-164): with no (truthy)
session id it returns `None` at once; otherwise it posts to the backend and
returns the `stage_id` of the response — `backendResp` is `some id` when
the request succeeded and the response carried a `stage_id`, and `none` on
an HTTP error, an exception, or a response without `stage_id`. -/
def add_stage (session_id : Option String) (backendResp : Option String) :
    Option String :=
  if truthyOpt session_id then backendResp else none

/-- `AutoDeployment.start_stage` (src/main.py 100-122): with an MCP client
and a truthy session id it returns whatever `add_stage` returned (also
recording it as the current stage); otherwise it returns the stage name
itself. -/
def start_stage (mcpPresent : Bool) (session_id : Option String)
    (backendResp : Option String) (stageName : String) : Option String :=
  if mcpPresent && truthyOpt session_id then add_stage session_id backendResp
  else some stageName

/-- Counterexample to claim C8 as stated: with a monitoring session open
(`session_id = "s1"`) but the backend stage-creation call failing
(`add_stage` returns `None`), `start_stage` returns `None` — not a usable
non-null identifier and not the stage name either. -/
theorem start_stage_can_return_none :
    start_stage true (some "s1") none "build" = none := rfl

/-- Claim C8 amended: `start_stage` returns the stage name itself (always
non-null) whenever no session is active or monitoring is disabled; with an
open session it returns the backend response verbatim — the backend-issued
id when the call succeeds, but `None` when the backend call fails or its
response carries no stage id. -/
theorem start_stage_identifier_cases (mcpPresent : Bool)
    (session_id : Option String) (backendResp : Option String)
    (stageName : String) :
    ((mcpPresent && truthyOpt session_id) = false →
      start_stage mcpPresent session_id backendResp stageName =
        some stageName) ∧
    ((mcpPresent && truthyOpt session_id) = true →
      start_stage mcpPresent session_id backendResp stageName =
        backendResp) := by
  constructor
  · intro h
    unfold start_stage
    rw [h]
    rfl
  · intro h
    unfold start_stage add_stage
    rw [h]
    simp only [if_true]
    rw [if_pos (by simpa using (Bool.and_eq_true _ _).mp h |>.2)]

/-- Witness for C8 (amended): disabled monitoring falls back to the stage
name; an open session with a successful backend call yields the backend id;
an open session with a failed backend call yields `None`. -/
theorem start_stage_identifier_cases_witness :
    ((false && truthyOpt none) = false ∧
      start_stage false none (some "ignored") "analyze" = some "analyze") ∧
    ((true && truthyOpt (some "s1")) = true ∧
      start_stage true (some "s1") (some "stage-7") "analyze" =
        some "stage-7") :=
  ⟨⟨rfl, (start_stage_identifier_cases false none (some "ignored")
      "analyze").1 rfl⟩,
    ⟨by decide, (start_stage_identifier_cases true (some "s1")
      (some "stage-7") "analyze").2 (by decide)⟩⟩

/-- The state of an `MCPClient` that matters to `close_session`: the stored
session id.  The source keeps no closed flag and never clears
`self.session_id`. -/
structure MCPState where
  session_id : Option String
deriving DecidableEq

/-- `MCPClient.close_session` (mcp_protocol.py 252-290): with a truthy
session id it posts one terminal close report to
`/sessions/{session_id}/close` and returns whether the post succeeded; the
client state is returned unchanged — nothing records that the session was
already closed.  The third component lists the session ids to which a close
report was sent during the call. -/
def mcp_close_session (s : MCPState) (backendOk : Bool) :
    Bool × MCPState × List String :=
  if truthyOpt s.session_id then (backendOk, s, [s.session_id.getD ""])
  else (false, s, [])

/-- Evaluation at the failing input of claim C5: with a session open
(`session_id = "s1"`), calling `close_session` twice sends two terminal
close reports — the second call is not ignored, because the client tracks
no closed flag and keeps its session id. -/
theorem close_session_twice_sends_two_reports :
    (mcp_close_session ⟨some "s1"⟩ true).2.2 ++
      (mcp_close_session (mcp_close_session ⟨some "s1"⟩ true).2.1 true).2.2 =
      ["s1", "s1"] ∧
    (mcp_close_session ⟨some "s1"⟩ true).2.2 = ["s1"] := by
  constructor <;> rfl

/-! ## Feature branch derivation (src/main.py 186-192 and 258-262)

`git_operations_stage` names and pushes the branch
`feature/auto-update-{int(time.time())}` with the timestamp taken during
that stage; `jenkins_build_stage`, when the analysis payload carries no
`BRANCH` parameter, fills one in from a *fresh* `int(time.time())`. -/

/-- The branch name both stages derive from a Unix timestamp. -/
def feature_branch (t : Nat) : String := "feature/auto-update-" ++ toString t

/-- Python dict lookup on the analysis payload's `jenkins_params`. -/
def lookupParam (k : String) : List (String × String) → Option String
  | [] => none
  | (k', v) :: rest => if k' = k then some v else lookupParam k rest

/-- The `BRANCH` build parameter `jenkins_build_stage` passes to the build
trigger (src/main.py 258-262): the caller-supplied value when present,
otherwise a branch name re-derived from the timestamp `tBuild` observed in
the build stage. -/
def jenkins_branch_param (jenkinsParams : List (String × String))
    (tBuild : Nat) : String :=
  match lookupParam "BRANCH" jenkinsParams with
  | some v => v
  | none => feature_branch tBuild

/-- Evaluation at the failing input of claim C1: in a run whose source-change
stage observed timestamp 1000 (pushing `feature/auto-update-1000`) and whose
build stage observed timestamp 1005, the `BRANCH` parameter passed to the
trigger is `feature/auto-update-1005`, which differs from the branch that
was pushed: the code re-derives the name from a fresh timestamp instead of
threading the pushed branch name through. -/
theorem branch_param_rederived_from_fresh_timestamp :
    jenkins_branch_param [] 1005 = feature_branch 1005 ∧
    jenkins_branch_param [] 1005 ≠ feature_branch 1000 := by
  exact ⟨rfl, by decide⟩

/-! ## AutoDeployment.run — uncaught-exception path (src/main.py 444-456)

The body of `run` sits in one `try`; its `except Exception as e` handler
(1) calls `self.close_session("failed", ...)` — which reaches the backend
only through `MCPClient.close_session`, whose own `try/except` converts any
backend failure into `False`; (2) wraps `self.notification_stage("failure",
...)` in `try: ... except: pass`; and (3) returns
`{"success": False, "error": str(e)}`. -/

/-- The value of `run` as seen by the caller: `success`, the optional
failing-stage name, the optional error text. -/
structure RunResult where
  success : Bool
  stage : Option String
  error : Option String
deriving DecidableEq

/-- `MCPClient.close_session` reduced to its return value: `False` with no
truthy session, otherwise `True`/`False` as the backend post succeeds or
raises — the raise is caught inside the method (mcp_protocol.py 288-290). -/
def mcp_close_outcome (session_id : Option String)
    (backend : Except Unit Unit) : Bool :=
  if truthyOpt session_id then
    match backend with
    | .ok _ => true
    | .error _ => false
  else false

/-- Everything observable about one execution of `run`'s exception handler:
the returned result, the status of the close attempt (`some "failed"` when a
session was open to close, per `AutoDeployment.close_session`'s guard at
main.py 382), whether the close report reached the backend, the status the
failure notification was sent with, and whether the notification stage ran
to completion (a raise inside it is swallowed by `except: pass`). -/
structure ExceptPathTrace where
  result : RunResult
  closeStatus : Option String
  closeDelivered : Bool
  notifyStatus : String
  notifyCompleted : Bool
deriving DecidableEq

/-- The `except Exception as e` handler of `AutoDeployment.run`
(src/main.py 444-456).  `e` is the original error text; `closeBackend` and
`notifyStage` are the world-side outcomes of the two secondary attempts
(`.error` = that attempt raised / failed underneath). -/
def run_handle_exception (e : String) (mcpPresent : Bool)
    (session_id : Option String) (closeBackend : Except Unit Unit)
    (notifyStage : Except Unit (String × Bool)) : ExceptPathTrace :=
  let closeAttempted := mcpPresent && truthyOpt session_id
  { result := ⟨false, none, some e⟩
    closeStatus := if closeAttempted then some "failed" else none
    closeDelivered :=
      if closeAttempted then mcp_close_outcome session_id closeBackend
      else false
    notifyStatus := "failure"
    notifyCompleted :=
      match notifyStage with
      | .ok _ => true
      | .error _ => false }

/-- `AutoDeployment.run` at the granularity claim C9 needs: the `try` body
either completes with a result or raises, and a raise is handled by
`run_handle_exception`. -/
def run (body : Except String RunResult) (mcpPresent : Bool)
    (session_id : Option String) (closeBackend : Except Unit Unit)
    (notifyStage : Except Unit (String × Bool)) : RunResult :=
  match body with
  | .ok r => r
  | .error e =>
    (run_handle_exception e mcpPresent session_id closeBackend
      notifyStage).result

/-- Claim C9: when the body of `run` raises with error text `e` while a
monitoring session is open, `run` still attempts to close the session with
status `failed` and attempts a `failure` notification; both attempts are
guarded — for every behavior of the close backend and of the notification
stage (including both raising) `run` returns the same failure result, which
carries the original error text and does not raise (it is a plain
`RunResult`). -/
theorem run_exception_path_guarded (e : String) (mcpPresent : Bool)
    (session_id : Option String) (closeBackend : Except Unit Unit)
    (notifyStage : Except Unit (String × Bool))
    (hm : mcpPresent = true) (hs : truthyOpt session_id = true) :
    run (.error e) mcpPresent session_id closeBackend notifyStage =
      ⟨false, none, some e⟩ ∧
    (run_handle_exception e mcpPresent session_id closeBackend
      notifyStage).closeStatus = some "failed" ∧
    (run_handle_exception e mcpPresent session_id closeBackend
      notifyStage).notifyStatus = "failure" ∧
    (∀ closeBackend' notifyStage',
      run (.error e) mcpPresent session_id closeBackend' notifyStage' =
        ⟨false, none, some e⟩) := by
  refine ⟨rfl, ?_, rfl, fun _ _ => rfl⟩
  simp [run_handle_exception, hm, hs]

/-- Witness for C9: error text `"boom"`, open session `"s1"`, with both the
close backend and the notification stage failing underneath — `run` still
returns the failure result carrying `"boom"` and the close was attempted
with status `failed`. -/
theorem run_exception_path_guarded_witness :
    (true : Bool) = true ∧ truthyOpt (some "s1") = true ∧
    run (.error "boom") true (some "s1") (.error ()) (.error ()) =
      ⟨false, none, some "boom"⟩ ∧
    (run_handle_exception "boom" true (some "s1") (.error ())
      (.error ())).closeStatus = some "failed" :=
  ⟨rfl, by decide,
    (run_exception_path_guarded "boom" true (some "s1") (.error ())
      (.error ()) rfl (by decide)).1,
    (run_exception_path_guarded "boom" true (some "s1") (.error ())
      (.error ()) rfl (by decide)).2.1⟩

end AutoDeploy
